import Mathlib

/-!
Verification of the frqc/data_generation repository against its design
specification.  The definitions below are a shallow embedding of
src/sensor_synchronization.py and src/camera.py; the theorems settle the
frozen claims about the collection barrier, the repositioning policy, the
tick-driver loop, the cleanup path and the camera buffer decoding.
-/

/- ===== Geometry (carla.Location / carla.Vector3D / carla.Rotation) ===== -/

/-- A 3-component vector over ℚ.  Models both carla.Location and
carla.Vector3D; the Python floats in this program are only used for exact
small arithmetic (offsets 0, 0.1, 0.2, 0.3, 0.5, 0.7). -/
structure Vec3 where
  x : ℚ
  y : ℚ
  z : ℚ
deriving DecidableEq, Repr

/-- carla.Rotation (pitch, yaw, roll). -/
structure Rotation where
  pitch : ℚ
  yaw : ℚ
  roll : ℚ
deriving DecidableEq, Repr

/-- The default rotation carla.Transform uses when only a Location is
given: Rotation(0, 0, 0). -/
def defaultRotation : Rotation := ⟨0, 0, 0⟩

/-- carla.Transform.  The field `rightVec` records the value the external
carla method get_right_vector() returns for this transform's rotation; the
trigonometric derivation lives inside the carla library, so the vector is
carried as data of the pose. -/
structure Transform where
  location : Vec3
  rotation : Rotation
  rightVec : Vec3
deriving DecidableEq, Repr

/-- The right vector carla reports for the default (zero) rotation. -/
def defaultRight : Vec3 := ⟨0, 1, 0⟩

/-- carla.Transform(carla.Location(...)): rotation left at the default. -/
def mkTransform (l : Vec3) : Transform := ⟨l, defaultRotation, defaultRight⟩

/- ===== get_transform (src/sensor_synchronization.py lines 43-53) ===== -/

/-- The distance_dict literal of get_transform (line 45):
\x7b0: 0, 1: 0.1, 2: 0.2, 3: 0.3, 4: 0.5, 5: 0.7\x7d.  A Python dict
subscript outside the domain raises KeyError, modelled as `none`. -/
def distance_dict (location_id : Nat) : Option ℚ :=
  if location_id = 0 then some 0
  else if location_id = 1 then some (1 / 10)
  else if location_id = 2 then some (2 / 10)
  else if location_id = 3 then some (3 / 10)
  else if location_id = 4 then some (5 / 10)
  else if location_id = 5 then some (7 / 10)
  else none

/-- get_transform (lines 43-53): location_delta is the reference pose's
right vector scaled by distance_dict[location_id]; the result is
carla.Transform(carla.Location(x + delta.x, z + delta.z, y + delta.y))
(all three components added, keyword order as in the source) with rotation
left at carla's default.  A missing dict entry propagates as `none`. -/
def get_transform (one_transform : Transform) (location_id : Nat) : Option Transform :=
  match distance_dict location_id with
  | none => none
  | some d =>
    let location_delta : Vec3 :=
      ⟨one_transform.rightVec.x * d, one_transform.rightVec.y * d, one_transform.rightVec.z * d⟩
    some (mkTransform
      ⟨one_transform.location.x + location_delta.x,
       one_transform.location.y + location_delta.y,
       one_transform.location.z + location_delta.z⟩)

/- ===== Samples and the intake queue ===== -/

/-- One element of the shared intake queue: the pair
(sensor_data, sensor_name) pushed by sensor_callback (line 40).
`payload` identifies the opaque sensor_data object, `frame` is
sensor_data.frame (the frame the producer stamped at production time) and
`name` is the tag the listen closure passed to the callback. -/
structure Sample where
  payload : Nat
  frame : Nat
  name : String
deriving DecidableEq, Repr

/-- sensor_callback (lines 37-40): appends the tagged sample to the FIFO
intake queue. -/
def sensor_callback (sensor_queue : List Sample) (s : Sample) : List Sample :=
  sensor_queue ++ [s]

/-- One entry of sensor_list together with the name its listen closure
tags samples with: the code appends (actor, location_id) pairs and binds
the names "depth", "right_cam", "left_1" ... "left_5" in the callbacks
(lines 103-134). -/
structure SensorSpec where
  actorId : Nat
  name : String
  locationId : Nat
deriving DecidableEq, Repr

/-- sensor_list as built in main: seven sensors, in registration order,
with their callback tags and location ids. -/
def sensorList : List SensorSpec :=
  [⟨0, "depth", 0⟩, ⟨1, "right_cam", 0⟩, ⟨2, "left_1", 1⟩, ⟨3, "left_2", 2⟩,
   ⟨4, "left_3", 3⟩, ⟨5, "left_4", 4⟩, ⟨6, "left_5", 5⟩]

/-- The SensorRegistry of the spec: the identities the seven callbacks tag
their samples with. -/
def registryNames : List String := sensorList.map (fun s => s.name)

/-- The registry as a finite set of identities. -/
def registrySet : Finset String := registryNames.toFinset

/-- Python '%08d' % n : decimal digits of n left-padded with zeros to
width 8 (numbers with more than 8 digits print in full). -/
def zpad8 (n : Nat) : String :=
  String.mk (List.replicate (8 - (toString n).length) '0') ++ toString n

/-- file_name = '_six_out/' + sensoer_name + '/%08d' % w_frame (line 171):
the persistence path is keyed by the identity the sample carries and the
tick's authoritative frame number. -/
def mkFileName (name : String) (wFrame : Nat) : String :=
  "_six_out/" ++ name ++ "/" ++ zpad8 wFrame

/-- One call of s_frame.save_to_disk(file_name) (line 172). -/
structure SaveEvent where
  path : String
  sample : Sample
deriving DecidableEq, Repr

/- ===== The per-tick collection loop (lines 163-177) ===== -/

/-- Everything one tick's collection produced.  `consumed` are the queue
elements pulled by sensor_queue.get, in order; `saves` the save_to_disk
calls; `repositions` the set_transform calls (actor id paired with the
transform computed by get_transform from this tick's spawn point);
`timedOut` records whether a get raised Empty (which exits the whole
collection loop); `queueAfter` is what remains on the intake. -/
structure TickResult where
  consumed : List Sample
  saves : List SaveEvent
  repositions : List (Nat × Option Transform)
  timedOut : Bool
  queueAfter : List Sample
deriving DecidableEq, Repr

/-- The collection loop of main:

  for sensor, location_id in sensor_list:
      s_frame, sensoer_name = sensor_queue.get(True, 1.0)
      ... save_to_disk(file_name) ...
      sensor.set_transform(get_transform(spawn_point, location_id))

wrapped in try/except Empty.  The queue argument is the list of samples
that are (or become) available on the intake before the per-item wait for
them would elapse, in arrival order; a get on an exhausted queue raises
Empty, which aborts the remaining iterations (no retry).  Samples that
arrive only after that moment belong to the next tick's queue. -/
def runCollect (wFrame : Nat) (spawn : Transform) : List SensorSpec → List Sample → TickResult
  | [], q => ⟨[], [], [], false, q⟩
  | _ :: _, [] => ⟨[], [], [], true, []⟩
  | s :: rest, smp :: q =>
    let r := runCollect wFrame spawn rest q
    ⟨smp :: r.consumed,
     ⟨mkFileName smp.name wFrame, smp⟩ :: r.saves,
     (s.actorId, get_transform spawn s.locationId) :: r.repositions,
     r.timedOut,
     r.queueAfter⟩

/- ===== Spec-level view: CollectionResult ===== -/

/-- The identities of the samples a tick's collection consumed - the
spec's CollectionResult.satisfied keys (the code itself keeps no such
set; this is the refinement mapping onto the spec's data model). -/
def satisfiedNames (r : TickResult) : List String := r.consumed.map (fun s => s.name)

/-- CollectionResult.satisfied as a finite set of identities. -/
def satisfiedSet (r : TickResult) : Finset String := (satisfiedNames r).toFinset

/-- CollectionResult.missing per the spec's data model: the expected
identities that were not satisfied this tick. -/
def missingSet (r : TickResult) : Finset String := registrySet \ satisfiedSet r

/-- The actor ids that received a set_transform call this tick. -/
def repositionedActors (r : TickResult) : List Nat := r.repositions.map (fun p => p.1)

/- ===== The driver loop (lines 146-177) ===== -/

/-- The environment's choices for one iteration of the main loop:
the authoritative frame returned after world.tick(), the random spawn
point (with randomized yaw) chosen for this tick, the samples pushed to
the intake early enough to be pulled by this tick's collection
(`inTime`, in arrival order) and the samples pushed only after this
tick's collection ended (`late`). -/
structure TickInput where
  wFrame : Nat
  spawn : Transform
  inTime : List Sample
  late : List Sample
deriving DecidableEq, Repr

/-- What one loop iteration did.  `diag` records whether the
"Some of the sensor information is missed" message was printed
(the except Empty handler, line 176). -/
structure TickOutcome where
  wFrame : Nat
  result : TickResult
  diag : Bool
deriving DecidableEq, Repr

/-- The main loop: sensor_queue is created once (line 92) and threaded
through the iterations; each iteration runs the collection over whatever
is on the queue plus this tick's in-time arrivals, and the next iteration
starts from the leftover queue plus the late arrivals. -/
def runLoop : List Sample → List TickInput → List TickOutcome
  | _, [] => []
  | q, t :: ts =>
    let r := runCollect t.wFrame t.spawn sensorList (q ++ t.inTime)
    ⟨t.wFrame, r, r.timedOut⟩ :: runLoop (r.queueAfter ++ t.late) ts

/- ===== Concrete scenario data ===== -/

/-- A reference pose at the origin whose right vector is (1, 0, 0). -/
def someSpawn : Transform := ⟨⟨0, 0, 0⟩, ⟨0, 0, 0⟩, ⟨1, 0, 0⟩⟩

/-- An arrival stream for one tick in which every producer except "depth"
responded in time (in registration order, at frame 100). -/
def othersInTime : List Sample :=
  [⟨1, 100, "right_cam"⟩, ⟨2, 100, "left_1"⟩, ⟨3, 100, "left_2"⟩,
   ⟨4, 100, "left_3"⟩, ⟨5, 100, "left_4"⟩, ⟨6, 100, "left_5"⟩]

/-- The collection of a tick at frame 100 in which "depth" never
responded and the six other producers did. -/
def tickNoDepth : TickResult := runCollect 100 someSpawn sensorList othersInTime

/-- A sample the depth producer pushed only after tick 100's collection
had already given up on it. -/
def staleDepth : Sample := ⟨10, 100, "depth"⟩

/-- Seven fresh samples, one per producer, arriving in time during the
frame-101 tick. -/
def fresh7 : List Sample :=
  [⟨21, 101, "depth"⟩, ⟨22, 101, "right_cam"⟩, ⟨23, 101, "left_1"⟩,
   ⟨24, 101, "left_2"⟩, ⟨25, 101, "left_3"⟩, ⟨26, 101, "left_4"⟩,
   ⟨27, 101, "left_5"⟩]

/-- Two consecutive loop iterations: during the first, depth's sample
arrives late; during the second, all seven producers respond in time. -/
def twoTicks : List TickInput :=
  [⟨100, someSpawn, othersInTime, [staleDepth]⟩, ⟨101, someSpawn, fresh7, []⟩]

/-- A sample tagged with an identity no registered producer uses. -/
def ghostSample : Sample := ⟨99, 777, "ghost"⟩

/- ===== The cleanup path (finally block, lines 179-182) ===== -/

/-- The Python values reachable from sensor_list in the finally block:
sensor actors, ints, and the (actor, location_id) tuples the code
appended. -/
inductive PyObj where
  | actor (id : Nat)
  | intObj (n : Nat)
  | pairObj (fst snd : PyObj)
deriving DecidableEq, Repr

/-- sensor_list exactly as main builds it: a list of
(actor, location_id) tuples (lines 103-134). -/
def sensorListPy : List PyObj :=
  [.pairObj (.actor 0) (.intObj 0), .pairObj (.actor 1) (.intObj 0),
   .pairObj (.actor 2) (.intObj 1), .pairObj (.actor 3) (.intObj 2),
   .pairObj (.actor 4) (.intObj 3), .pairObj (.actor 5) (.intObj 4),
   .pairObj (.actor 6) (.intObj 5)]

/-- Python attribute dispatch for x.destroy(): only actor objects have a
destroy method; on any other object the call raises AttributeError,
modelled as `none`. -/
def destroyAttr : PyObj → Option Nat
  | .actor id => some id
  | _ => none

/-- The loop `for sensor in sensor_list: sensor.destroy()` (lines
181-182): destroys elements in order until a call raises AttributeError,
which aborts the sweep; returns the destroyed actor ids and whether the
sweep faulted. -/
def destroySweep : List PyObj → List Nat × Bool
  | [] => ([], false)
  | x :: xs =>
    match destroyAttr x with
    | some id =>
      let r := destroySweep xs
      (id :: r.1, r.2)
    | none => ([], true)

/-- What the finally block achieved on an exit after setup. -/
structure CleanupOutcome where
  settingsRestored : Bool
  destroyed : List Nat
  attrFault : Bool
deriving DecidableEq, Repr

/-- The finally block (lines 179-182): world.apply_settings
(original_settings) runs first and succeeds, then the destroy loop runs
over sensor_list. -/
def runFinally : CleanupOutcome :=
  let d := destroySweep sensorListPy
  ⟨true, d.1, d.2⟩

/- ===== Camera decoding (src/camera.py lines 13-19) ===== -/

/-- A numpy ndarray of uint8: its shape and its entries in row-major
order (numpy's default C order, which frombuffer and reshape preserve). -/
structure NdArray where
  shape : List Nat
  entries : List Nat
deriving DecidableEq, Repr

/-- np.frombuffer(data, dtype=uint8): a one-dimensional view of the raw
bytes, in order. -/
def np_frombuffer (data : List Nat) : NdArray := ⟨[data.length], data⟩

/-- np.reshape(a, s): succeeds exactly when the product of the new shape
equals the number of entries, and then reinterprets the same row-major
entries under the new shape (no element is moved, dropped or reordered);
otherwise numpy raises ValueError, modelled as `none`. -/
def np_reshape (a : NdArray) (s : List Nat) : Option NdArray :=
  if s.prod = a.entries.length then some ⟨s, a.entries⟩ else none

/-- process_camera_data (src/camera.py lines 13-19): frombuffer followed
by reshape to (height, width, 4); the two commented-out channel slices
are dead code. -/
def process_camera_data (data : List Nat) (height width : Nat) : Option NdArray :=
  np_reshape (np_frombuffer data) [height, width, 4]

/- ===================== Theorems ===================== -/

/-- The samples a tick's collection consumes are exactly the available
queue prefix of the sensor-list length: one get per registered sensor,
stopping early (without retry) when the queue is exhausted. -/
theorem runCollect_consumed (w : Nat) (sp : Transform) :
    ∀ (sensors : List SensorSpec) (q : List Sample),
      (runCollect w sp sensors q).consumed = q.take sensors.length
  | [], q => by simp [runCollect]
  | _ :: rest, [] => by simp [runCollect]
  | s :: rest, smp :: q => by
    simp [runCollect, runCollect_consumed w sp rest q]

/-- A get raises Empty (and the collection aborts) exactly when fewer
samples are available than there are registered sensors. -/
theorem runCollect_timedOut (w : Nat) (sp : Transform) :
    ∀ (sensors : List SensorSpec) (q : List Sample),
      (runCollect w sp sensors q).timedOut = decide (q.length < sensors.length)
  | [], q => by simp [runCollect]
  | _ :: rest, [] => by simp [runCollect]
  | s :: rest, smp :: q => by
    simp [runCollect, runCollect_timedOut w sp rest q, Nat.succ_lt_succ_iff]

/-- Every consumed sample is saved, at the path built from the identity
the sample itself carries and the tick's authoritative frame. -/
theorem runCollect_saves (w : Nat) (sp : Transform) :
    ∀ (sensors : List SensorSpec) (q : List Sample),
      (runCollect w sp sensors q).saves =
        (runCollect w sp sensors q).consumed.map (fun s => ⟨mkFileName s.name w, s⟩)
  | [], q => by simp [runCollect]
  | _ :: rest, [] => by simp [runCollect]
  | s :: rest, smp :: q => by
    simp [runCollect, runCollect_saves w sp rest q]

/-- set_transform is called exactly for the first (number of available
samples) sensor-list slots, with the transform computed by get_transform
from this tick's spawn point. -/
theorem runCollect_repositions (w : Nat) (sp : Transform) :
    ∀ (sensors : List SensorSpec) (q : List Sample),
      (runCollect w sp sensors q).repositions =
        (sensors.take q.length).map (fun s => (s.actorId, get_transform sp s.locationId))
  | [], q => by simp [runCollect]
  | _ :: rest, [] => by simp [runCollect]
  | s :: rest, smp :: q => by
    simp [runCollect, runCollect_repositions w sp rest q]

/-- The queue left behind by a tick's collection is the available queue
minus the consumed prefix. -/
theorem runCollect_queueAfter (w : Nat) (sp : Transform) :
    ∀ (sensors : List SensorSpec) (q : List Sample),
      (runCollect w sp sensors q).queueAfter = q.drop sensors.length
  | [], q => by simp [runCollect]
  | _ :: rest, [] => by simp [runCollect]
  | s :: rest, smp :: q => by
    simp [runCollect, runCollect_queueAfter w sp rest q]

/-- The driver loop produces one outcome per tick input: a partial tick
never terminates the loop. -/
theorem runLoop_length : ∀ (q : List Sample) (ts : List TickInput),
    (runLoop q ts).length = ts.length
  | _, [] => by simp [runLoop]
  | q, t :: ts => by simp [runLoop, runLoop_length _ ts]

/-- The missed-information diagnostic is printed on exactly the
iterations whose collection timed out. -/
theorem runLoop_diag : ∀ (q : List Sample) (ts : List TickInput),
    (runLoop q ts).map (fun o => o.diag) = (runLoop q ts).map (fun o => o.result.timedOut)
  | _, [] => rfl
  | q, t :: ts => by simp [runLoop, runLoop_diag _ ts]

/-- C1, counterexample: a frame-100 tick in which the producer "depth"
(first in the wait order) never responds while the six later producers
all respond in time.  The timed-out get ends the collection, but the
missing set is exactly \x7b"depth"\x7d: "right_cam" and the others, all
waited on after "depth", are satisfied - refuting the claim that a
producer never responding puts every sensor after it into missing. -/
theorem c1_counterexample :
    (∀ s ∈ othersInTime, s.name ≠ "depth") ∧
    tickNoDepth.timedOut = true ∧
    missingSet tickNoDepth = {"depth"} ∧
    "right_cam" ∉ missingSet tickNoDepth := by decide

/-- C1, amended: a timed-out per-item wait is not retried - the
collection consumes exactly the samples that were available in time and
stops - and every expected sensor whose sample was not consumed by then
is missing; in particular a producer that never responds is always
missing, but later sensors need not be. -/
theorem c1_timeout_no_retry_amended (w : Nat) (sp : Transform) (q : List Sample) (k : String)
    (hk : k ∈ registryNames) (hq : ∀ s ∈ q, s.name ≠ k) :
    k ∈ missingSet (runCollect w sp sensorList q) ∧
    (runCollect w sp sensorList q).timedOut = decide (q.length < sensorList.length) ∧
    (runCollect w sp sensorList q).consumed = q.take sensorList.length := by
  refine ⟨?_, runCollect_timedOut w sp sensorList q, runCollect_consumed w sp sensorList q⟩
  have hns : k ∉ satisfiedSet (runCollect w sp sensorList q) := by
    intro hx
    rw [satisfiedSet, List.mem_toFinset, satisfiedNames] at hx
    rcases List.mem_map.mp hx with ⟨s, hs, hname⟩
    rw [runCollect_consumed w sp sensorList q] at hs
    exact hq s ((List.take_sublist _ _).subset hs) hname
  rw [missingSet, Finset.mem_sdiff]
  exact ⟨by rw [registrySet, List.mem_toFinset]; exact hk, hns⟩

/-- C1, witness: the amended theorem applied to the concrete tick in
which only "depth" never responds. -/
theorem c1_timeout_no_retry_witness :
    ("depth" ∈ registryNames ∧ ∀ s ∈ othersInTime, s.name ≠ "depth") ∧
    ("depth" ∈ missingSet (runCollect 100 someSpawn sensorList othersInTime) ∧
     (runCollect 100 someSpawn sensorList othersInTime).timedOut =
       decide (othersInTime.length < sensorList.length) ∧
     (runCollect 100 someSpawn sensorList othersInTime).consumed =
       othersInTime.take sensorList.length) :=
  ⟨⟨by decide, by decide⟩,
   c1_timeout_no_retry_amended 100 someSpawn othersInTime "depth" (by decide) (by decide)⟩

/-- C2: for every tick and every arrival interleaving in which the
samples on the intake carry registered identities (as every sample pushed
by the program's seven callbacks does), the satisfied and missing sets of
the tick's CollectionResult are disjoint and their union is the full
registry. -/
theorem c2_partition_invariant (w : Nat) (sp : Transform) (q : List Sample)
    (hq : ∀ s ∈ q, s.name ∈ registryNames) :
    satisfiedSet (runCollect w sp sensorList q) ∩ missingSet (runCollect w sp sensorList q) = ∅ ∧
    satisfiedSet (runCollect w sp sensorList q) ∪ missingSet (runCollect w sp sensorList q) =
      registrySet := by
  have hsub : satisfiedSet (runCollect w sp sensorList q) ⊆ registrySet := by
    intro x hx
    rw [satisfiedSet, List.mem_toFinset, satisfiedNames] at hx
    rcases List.mem_map.mp hx with ⟨s, hs, hname⟩
    rw [runCollect_consumed w sp sensorList q] at hs
    rw [registrySet, List.mem_toFinset, ← hname]
    exact hq s ((List.take_sublist _ _).subset hs)
  exact ⟨Finset.inter_sdiff_self _ _, Finset.union_sdiff_of_subset hsub⟩

/-- C2, witness: the partition invariant at the concrete tick in which
only "depth" never responds. -/
theorem c2_partition_witness :
    (∀ s ∈ othersInTime, s.name ∈ registryNames) ∧
    (satisfiedSet (runCollect 100 someSpawn sensorList othersInTime) ∩
       missingSet (runCollect 100 someSpawn sensorList othersInTime) = ∅ ∧
     satisfiedSet (runCollect 100 someSpawn sensorList othersInTime) ∪
       missingSet (runCollect 100 someSpawn sensorList othersInTime) = registrySet) :=
  ⟨by decide, c2_partition_invariant 100 someSpawn othersInTime (by decide)⟩

/-- C3, counterexample: in the tick where "depth" never responds, the
collection times out at the seventh get, and set_transform reaches only
the first six sensor-list slots: actor 6 ("left_5") receives no new
transform this tick even though "left_5" is satisfied - refuting the
claim that every registered sensor is repositioned after collection
completes. -/
theorem c3_counterexample :
    (∀ s ∈ othersInTime, s.name ≠ "depth") ∧
    sensorList.map (fun s => s.actorId) = [0, 1, 2, 3, 4, 5, 6] ∧
    repositionedActors tickNoDepth = [0, 1, 2, 3, 4, 5] ∧
    6 ∉ repositionedActors tickNoDepth ∧
    "left_5" ∈ satisfiedNames tickNoDepth := by decide

/-- C3, amended: transforms are computed from the latest reference pose
and applied inside the collection loop, one per successfully pulled
sample, to the sensor of that iteration's registry slot: exactly the
first (number of available samples) slots are repositioned, and on a
timeout the remaining slots keep their previous transforms this tick. -/
theorem c3_reposition_amended (w : Nat) (sp : Transform) (q : List Sample) :
    (runCollect w sp sensorList q).repositions =
      (sensorList.take q.length).map (fun s => (s.actorId, get_transform sp s.locationId)) :=
  runCollect_repositions w sp sensorList q

/-- C4, counterexample: a sample tagged "ghost", an identity outside the
registry, is pulled, persisted at a path keyed by "ghost", and counted
like any other sample - it is not discarded, and the code has no
warning-level surfacing of unexpected identities at all - refuting the
warn-and-discard clause of the claim. -/
theorem c4_counterexample :
    "ghost" ∉ registryNames ∧
    (runCollect 100 someSpawn sensorList [ghostSample]).saves =
      [⟨"_six_out/ghost/00000100", ghostSample⟩] ∧
    (runCollect 100 someSpawn sensorList [ghostSample]).consumed = [ghostSample] := by decide

/-- C4, amended: every pulled sample is recorded against the identity it
itself carries (so it is never credited to another sensor's slot), with
no check that the identity is expected: an unexpected sample is silently
persisted like any other, and the tick is not aborted. -/
theorem c4_recorded_amended (w : Nat) (sp : Transform) (q : List Sample) :
    ∀ e ∈ (runCollect w sp sensorList q).saves, e.path = mkFileName e.sample.name w := by
  intro e he
  rw [runCollect_saves w sp sensorList q] at he
  rcases List.mem_map.mp he with ⟨s, _, rfl⟩
  rfl

/-- C4, witness: the save event of the "ghost" sample is keyed by the
identity the sample carries. -/
theorem c4_recorded_witness :
    (⟨"_six_out/ghost/00000100", ghostSample⟩ : SaveEvent) ∈
      (runCollect 100 someSpawn sensorList [ghostSample]).saves ∧
    (⟨"_six_out/ghost/00000100", ghostSample⟩ : SaveEvent).path =
      mkFileName (⟨"_six_out/ghost/00000100", ghostSample⟩ : SaveEvent).sample.name 100 :=
  ⟨by decide, c4_recorded_amended 100 someSpawn [ghostSample] _ (by decide)⟩

/-- C5, counterexample: depth's frame-100 sample arrives only after the
frame-100 tick's collection gave up, so it stays on the intake; the
frame-101 tick's collection then consumes it first - a sample produced
for an earlier tick is consumed by a later tick's collection, and
left_5's fresh sample is displaced.  This refutes the claim that no
stale sample crosses iterations. -/
theorem c5_counterexample :
    twoTicks = [⟨100, someSpawn, othersInTime, [staleDepth]⟩, ⟨101, someSpawn, fresh7, []⟩] ∧
    (runLoop [] twoTicks).map (fun o => o.wFrame) = [100, 101] ∧
    (runLoop [] twoTicks).map (fun o => o.result.consumed) =
      [othersInTime, staleDepth :: fresh7.take 6] ∧
    staleDepth.frame = 100 := by decide

/-- C5, amended: the intake queue is created once per run and is never
drained between iterations, so samples left over from an earlier tick
remain available and are consumed first (FIFO) by the next tick's
collection. -/
theorem c5_stale_amended (w : Nat) (sp : Transform) (q fresh : List Sample) (hq : q ≠ []) :
    (runCollect w sp sensorList (q ++ fresh)).consumed.head? = q.head? := by
  rw [runCollect_consumed]
  cases q with
  | nil => exact absurd rfl hq
  | cons a q' => rfl

/-- C5, witness: the stale depth sample heads the frame-101 tick's
consumption. -/
theorem c5_stale_witness :
    ([staleDepth] ≠ ([] : List Sample)) ∧
    (runCollect 101 someSpawn sensorList ([staleDepth] ++ fresh7)).consumed.head? =
      some staleDepth :=
  ⟨by decide, (c5_stale_amended 101 someSpawn [staleDepth] fresh7 (by decide)).trans rfl⟩

/-- C6: the finally block does restore the original settings first, but
its destroy loop iterates sensor_list, whose elements are
(actor, location_id) tuples, and calls destroy on the tuple itself: the
first iteration raises AttributeError and not one of the seven spawned
actors is destroyed, on every exit path - the code contradicts its own
cleanup intent (every other loop unpacks the tuples). -/
theorem c6_cleanup_bug :
    runFinally.settingsRestored = true ∧
    runFinally.destroyed = [] ∧
    runFinally.attrFault = true ∧
    sensorListPy.length = 7 := by decide

/-- C7: for every reference pose and every location id present in the
offset table, get_transform returns the pose whose location is the
reference location plus the reference pose's right vector scaled by the
configured distance (all components added), with rotation left at
carla's default rather than copied from the reference. -/
theorem c7_next_transform (t : Transform) (d : ℚ) (location_id : Nat)
    (h : distance_dict location_id = some d) :
    get_transform t location_id =
      some ⟨⟨t.location.x + t.rightVec.x * d, t.location.y + t.rightVec.y * d,
             t.location.z + t.rightVec.z * d⟩, defaultRotation, defaultRight⟩ := by
  simp [get_transform, h, mkTransform]

/-- C7, witness: for a reference at the origin with right vector
(1, 0, 0), location ids 1 and 2 (offsets 0.1 and 0.2) yield locations
(0.1, 0, 0) and (0.2, 0, 0) with the default rotation. -/
theorem c7_next_transform_witness :
    (distance_dict 1 = some (1 / 10) ∧
     get_transform someSpawn 1 =
       some ⟨⟨1 / 10, 0, 0⟩, defaultRotation, defaultRight⟩) ∧
    (distance_dict 2 = some (1 / 5) ∧
     get_transform someSpawn 2 =
       some ⟨⟨1 / 5, 0, 0⟩, defaultRotation, defaultRight⟩) :=
  ⟨⟨by norm_num [distance_dict],
    (c7_next_transform someSpawn (1 / 10) 1 (by norm_num [distance_dict])).trans
      (by norm_num [someSpawn])⟩,
   ⟨by norm_num [distance_dict],
    (c7_next_transform someSpawn (1 / 5) 2 (by norm_num [distance_dict])).trans
      (by norm_num [someSpawn])⟩⟩

/-- C8, counterexample to the diagnostic clause: in the two-tick stale
run, the frame-101 tick's CollectionResult is missing "left_5" (the
stale depth sample filled the seventh slot), yet no timeout occurred and
no diagnostic was printed - a sensor is missing without any diagnostic. -/
theorem c8_counterexample :
    (runLoop [] twoTicks).map (fun o => (missingSet o.result, o.diag)) =
      [({"depth"}, true), ({"left_5"}, false)] := by decide

/-- C8, amended: every consumed sample is persisted at the path keyed by
the identity the sample carries and the tick's authoritative frame
number zero-padded to eight digits (the frame stored inside the sample is
not used); the missed-information diagnostic is printed exactly when a
per-item wait times out (not per missing sensor); and the loop produces
one outcome per tick, never terminating on a partial tick. -/
theorem c8_persistence_amended (w : Nat) (sp : Transform) (q : List Sample)
    (ts : List TickInput) :
    (runCollect w sp sensorList q).saves =
      (runCollect w sp sensorList q).consumed.map
        (fun s => ⟨"_six_out/" ++ s.name ++ "/" ++ zpad8 w, s⟩) ∧
    (runLoop q ts).map (fun o => o.diag) =
      (runLoop q ts).map (fun o => o.result.timedOut) ∧
    (runLoop q ts).length = ts.length :=
  ⟨runCollect_saves w sp sensorList q, runLoop_diag q ts, runLoop_length q ts⟩

/-- C9: a location id absent from the offset table makes get_transform
fail (the dict subscript raises KeyError) rather than silently treating
the offset as zero and returning the reference pose. -/
theorem c9_offset_lookup_fails (t : Transform) (location_id : Nat) (h : 6 ≤ location_id) :
    get_transform t location_id = none := by
  have h0 : location_id ≠ 0 := by omega
  have h1 : location_id ≠ 1 := by omega
  have h2 : location_id ≠ 2 := by omega
  have h3 : location_id ≠ 3 := by omega
  have h4 : location_id ≠ 4 := by omega
  have h5 : location_id ≠ 5 := by omega
  simp [get_transform, distance_dict, h0, h1, h2, h3, h4, h5]

/-- C9, witness: location id 6 is absent from the table and the lookup
fails. -/
theorem c9_offset_lookup_witness :
    6 ≤ 6 ∧ get_transform someSpawn 6 = none :=
  ⟨by decide, c9_offset_lookup_fails someSpawn 6 (by decide)⟩

/-- C10: for a raw buffer of length exactly height * width * 4,
process_camera_data returns the (height, width, 4) array whose row-major
entries are the buffer's bytes in order (pure reinterpretation); for any
other length the reshape fails and no array is returned. -/
theorem c10_reshape (data : List Nat) (height width : Nat) :
    (data.length = height * width * 4 →
      process_camera_data data height width = some ⟨[height, width, 4], data⟩) ∧
    (data.length ≠ height * width * 4 →
      process_camera_data data height width = none) := by
  have hp : ([height, width, 4] : List Nat).prod = height * width * 4 := by
    simp [Nat.mul_assoc]
  constructor
  · intro hl
    rw [process_camera_data, np_frombuffer, np_reshape]
    simp [hp, hl]
  · intro hl
    rw [process_camera_data, np_frombuffer, np_reshape]
    simp [hp]
    intro hcontra
    exact absurd hcontra.symm hl

/-- C10, witness: an 8-byte buffer reshaped to (1, 2, 4) is returned
with its bytes in order. -/
theorem c10_reshape_witness :
    ([0, 1, 2, 3, 4, 5, 6, 7] : List Nat).length = 1 * 2 * 4 ∧
    process_camera_data [0, 1, 2, 3, 4, 5, 6, 7] 1 2 =
      some ⟨[1, 2, 4], [0, 1, 2, 3, 4, 5, 6, 7]⟩ :=
  ⟨by decide, (c10_reshape [0, 1, 2, 3, 4, 5, 6, 7] 1 2).1 (by decide)⟩
